import Mathlib

/-!
Verification of the room-detection pipeline (roomDetection.py and
enhancedRoomDetection.py).

The two scripts are shallowly embedded: pixel geometry uses ℤ, areas and
ratios use ℚ (exact rationals in place of Python floats), room records are
structures, the JSON room dicts are association lists, and the fallible
classifier (which divides by total_area without a guard) returns an Option.
OpenCV primitives that only feed the logic under scrutiny (contourArea,
boundingRect) are embedded from their documented semantics; CV stages whose
output merely parameterizes the logic (findContours, floodFill, approxPolyDP,
HoughLinesP) are abstracted as inputs.
-/

/-- A contour: an ordered list of integer pixel points, as produced by
contour extraction. -/
abbrev Contour := List (ℤ × ℤ)

/-- Cyclic cross-product sum of the shoelace (Green) formula: `first` is the
initial point the polygon closes back to, the first explicit argument is the
previous point, the list holds the remaining points. -/
def cross_sum (first : ℤ × ℤ) : ℤ × ℤ → List (ℤ × ℤ) → ℤ
  | prev, [] => prev.1 * first.2 - first.1 * prev.2
  | prev, p :: rest => (prev.1 * p.2 - p.1 * prev.2) + cross_sum first p rest

/-- Modelled from OpenCV's cv2.contourArea (default oriented=False): the
absolute value of the oriented polygon area by the shoelace formula. -/
def contourArea : Contour → ℚ
  | [] => 0
  | p :: rest => (((cross_sum p p rest).natAbs : ℕ) : ℚ) / 2

/-- An axis-aligned rectangle (x, y, w, h). -/
structure Rect where
  x : ℤ
  y : ℤ
  w : ℤ
  h : ℤ
deriving DecidableEq

/-- Modelled from OpenCV's cv2.boundingRect: the minimal axis-aligned box of
the points, with inclusive pixel extents (w = maxx - minx + 1, likewise h).
An empty contour gives the zero rectangle. -/
def boundingRect : Contour → Rect
  | [] => { x := 0, y := 0, w := 0, h := 0 }
  | p :: rest =>
    { x := rest.foldl (fun m q => min m q.1) p.1
      y := rest.foldl (fun m q => min m q.2) p.2
      w := rest.foldl (fun m q => max m q.1) p.1 - rest.foldl (fun m q => min m q.1) p.1 + 1
      h := rest.foldl (fun m q => max m q.2) p.2 - rest.foldl (fun m q => min m q.2) p.2 + 1 }

/-- Aspect ratio of a bounding rectangle, `float(w) / h if h > 0 else 0`
as written in both scripts. -/
def aspect_of (r : Rect) : ℚ :=
  if r.h > 0 then (r.w : ℚ) / (r.h : ℚ) else 0

/-- The geometric fields of a detected room record that the overlap-resolution
and band-filter logic reads: bounding box, enclosed area, aspect ratio
(`aspect_ratio` in the source dicts). The remaining dict fields
(id, name, type, confidence, contour) do not influence that logic and are
modelled by the association-list form `room_dict` below. -/
structure Room where
  x : ℤ
  y : ℤ
  width : ℤ
  height : ℤ
  area : ℚ
  aspect : ℚ
deriving DecidableEq

/-- Bounding-box intersection area of two rooms, exactly as computed in
roomDetection.process_floorplan (lines 388-391) and
enhancedRoomDetection.remove_overlapping_rooms (lines 311-314). -/
def overlap_area (a b : Room) : ℤ :=
  max 0 (min (a.x + a.width) (b.x + b.width) - max a.x b.x) *
    max 0 (min (a.y + a.height) (b.y + b.height) - max a.y b.y)

/-- One iteration of the greedy overlap-resolution loop: the candidate r is
appended to the accepted list only if its bounding-box overlap with every
already-accepted room does not exceed thr times the smaller of the two
stored areas (the `should_add` loop in both scripts). -/
def dedup_step (thr : ℚ) (acc : List Room) (r : Room) : List Room :=
  if acc.all (fun e => !(decide ((overlap_area r e : ℚ) > thr * min r.area e.area))) then
    acc ++ [r]
  else acc

/-- The greedy overlap resolver common to both scripts: stable sort by area
descending (Python's sorted(..., key=area, reverse=True)), then greedily
accept. thr is 0.7 in roomDetection.process_floorplan (line 394) and 0.6 in
enhancedRoomDetection.remove_overlapping_rooms (line 317). -/
def dedup_rooms (thr : ℚ) (rooms : List Room) : List Room :=
  (List.insertionSort (fun a b => b.area ≤ a.area) rooms).foldl (dedup_step thr) []

/-- The pairwise property the overlap resolver is meant to establish:
bounding-box intersection at most thr times the smaller stored area. -/
def no_big_overlap (thr : ℚ) (a b : Room) : Prop :=
  (overlap_area a b : ℚ) ≤ thr * min a.area b.area

/-- JSON-like values stored in a room dict. -/
inductive Value where
  | s (v : String)
  | i (v : ℤ)
  | q (v : ℚ)
  | pts (v : List (List ℤ))
deriving DecidableEq

/-- The per-room serialization step of both scripts (roomDetection lines
403-408, enhancedRoomDetection lines 384-389): copy every key except
"contour", preserving order. -/
def rooms_json_entry (room : List (String × Value)) : List (String × Value) :=
  room.filter (fun kv => kv.1 != "contour")

/-- The persisted result record of roomDetection.process_floorplan
(lines 415-422). -/
structure ResultRecord where
  source : String
  width : ℕ
  height : ℕ
  floor : String
  rooms : List (List (String × Value))
  processingComplete : Bool
deriving DecidableEq

/-- The persisted result record of enhancedRoomDetection.process_floor_plan
(lines 391-399), which adds the enhancedDetection flag. -/
structure EResultRecord where
  source : String
  width : ℕ
  height : ℕ
  floor : String
  rooms : List (List (String × Value))
  processingComplete : Bool
  enhancedDetection : Bool
deriving DecidableEq

/-- Terminal outcome of one per-image pipeline run: a normally emitted result
record, or a failure naming the originating stage. -/
inductive Outcome (α : Type) where
  | completed (record : α)
  | failed (stage : String)
deriving DecidableEq

/-- One step of Python's max(xs, key=f): the running best is replaced only
when the new key is strictly greater, so the first maximum wins. -/
def py_max_step (f : α → ℚ) (best d : α) : α :=
  if f d > f best then d else best

namespace roomDetection

/-- Horizontal center of a text box, `x + w // 2` (line 145); Python floor
division on these non-negative ints coincides with ℕ division. -/
def center_x (x w : ℕ) : ℤ := ((x + w / 2 : ℕ) : ℤ)

/-- Vertical center of a text box, `y + h // 2` (line 146). -/
def center_y (y h : ℕ) : ℤ := ((y + h / 2 : ℕ) : ℤ)

/-- The four candidate seed points probed around the text-box center, in
priority order above, below, left, right (lines 149-154). Offsets may leave
the image; bounds are checked by find_seed. -/
def seed_candidates (x y w h : ℕ) : List (ℤ × ℤ) :=
  [(center_x x w, center_y y h - (h : ℤ)),
   (center_x x w, center_y y h + (h : ℤ)),
   (center_x x w - (w : ℤ), center_y y h),
   (center_x x w + (w : ℤ), center_y y h)]

/-- The seed-selection loop of get_room_contour (lines 156-161): the first
candidate (sx, sy) inside image bounds whose binarized pixel binary[sy, sx]
equals 255 (light, non-wall). -/
def find_seed (binary : ℤ → ℤ → ℕ) (width height : ℤ) :
    List (ℤ × ℤ) → Option (ℤ × ℤ)
  | [] => none
  | p :: rest =>
    if 0 ≤ p.1 ∧ p.1 < width ∧ 0 ≤ p.2 ∧ p.2 < height ∧ binary p.2 p.1 = 255 then
      some p
    else find_seed binary width height rest

/-- Seed-point choice with center fallback (lines 163-165): if no probe
qualifies, the text-box center is used even if it is a wall pixel. -/
def get_seed_point (binary : ℤ → ℤ → ℕ) (width height : ℤ) (x y w h : ℕ) : ℤ × ℤ :=
  (find_seed binary width height (seed_candidates x y w h)).getD
    (center_x x w, center_y y h)

/-- Specification-side validity check for a seed candidate: inside image
bounds and on a light (255) pixel. -/
def is_valid_seed (binary : ℤ → ℤ → ℕ) (width height : ℤ) (p : ℤ × ℤ) : Bool :=
  decide (0 ≤ p.1 ∧ p.1 < width ∧ 0 ≤ p.2 ∧ p.2 < height ∧ binary p.2 p.1 = 255)

/-- Final step of get_room_contour (lines 183-191), taking the contour list
extracted from the patched flood-fill mask (the preceding CV steps are
abstracted as this input): None when no contours were found, otherwise
Python's max(contours, key=cv2.contourArea). -/
def get_room_contour (contours : List Contour) : Option Contour :=
  match contours with
  | [] => none
  | c :: rest => some (rest.foldl (py_max_step contourArea) c)

/-- Room classifier of roomDetection.py (lines 193-229) after the division
area / total_area has been performed: ordered threshold bands on the relative
area, with aspect-ratio sub-branches. -/
def classify_rel (rel r : ℚ) : String :=
  if rel > 1/4 then
    if r > 3 then "hallway" else "hall"
  else if rel > 3/20 then
    if 7/10 < r ∧ r < 13/10 then "conference"
    else if r > 2 then "hallway"
    else "classroom"
  else if rel > 1/20 then
    if 7/10 < r ∧ r < 13/10 then "office"
    else if r > 3 then "hallway"
    else "laboratory"
  else if rel > 1/50 then
    if 7/10 < r ∧ r < 13/10 then "storage"
    else if r > 5/2 then "corridor"
    else "office"
  else
    if 7/10 < r ∧ r < 13/10 then "utility"
    else if r > 3 then "corridor"
    else "storage"

/-- classify_room_type of roomDetection.py: the unguarded division
area / total_area raises ZeroDivisionError in Python when total_area = 0,
modelled as none. -/
def classify_room_type (area r total_area : ℚ) : Option String :=
  if total_area = 0 then none else some (classify_rel (area / total_area) r)

/-- Per-text-region body of the detection loop in process_floorplan
(lines 341-377), restricted to its geometric fields: from the optional
contour returned by get_room_contour, compute bounding box, area and aspect
ratio, and keep the room only if area lies strictly inside
(0.003 * total_area, 0.6 * total_area) and the aspect ratio strictly inside
(0.1, 10) (lines 353-357). -/
def region_room (total : ℚ) (c : Option Contour) : Option Room :=
  match c with
  | none => none
  | some pts =>
    if total * (3/1000) < contourArea pts ∧ contourArea pts < total * (6/10) ∧
        (1/10 : ℚ) < aspect_of (boundingRect pts) ∧ aspect_of (boundingRect pts) < 10 then
      some { x := (boundingRect pts).x, y := (boundingRect pts).y,
             width := (boundingRect pts).w, height := (boundingRect pts).h,
             area := contourArea pts, aspect := aspect_of (boundingRect pts) }
    else none

/-- The detection loop of process_floorplan over all text regions, taking the
per-region results of get_room_contour as input. -/
def build_rooms (total : ℚ) (cs : List (Option Contour)) : List Room :=
  cs.filterMap (region_room total)

/-- The inline dedup loop of process_floorplan (lines 379-399), with overlap
threshold 0.7; named after its accumulator variable filtered_rooms. -/
def filtered_rooms (rooms : List Room) : List Room :=
  dedup_rooms (7/10) rooms

/-- The room dict appended in process_floorplan (lines 365-377): id, name,
type, bounding box, int-truncated area, aspect ratio, the constant confidence
0.85, and the contour. -/
def room_dict (id name rtype : String) (x y w h area : ℤ) (ar : ℚ)
    (contour : List (List ℤ)) : List (String × Value) :=
  [("id", Value.s id), ("name", Value.s name), ("type", Value.s rtype),
   ("x", Value.i x), ("y", Value.i y), ("width", Value.i w), ("height", Value.i h),
   ("area", Value.i area), ("aspect_ratio", Value.q ar),
   ("confidence", Value.q (17/20)), ("contour", Value.pts contour)]

/-- Result assembly at the end of process_floorplan (lines 401-422): the
record is emitted unconditionally with processingComplete = true; there is no
zero-candidate check anywhere on this path. -/
def assemble_result (source : String) (width height : ℕ) (floor : String)
    (filtered : List (List (String × Value))) : Outcome ResultRecord :=
  Outcome.completed
    { source := source, width := width, height := height, floor := floor,
      rooms := filtered.map rooms_json_entry, processingComplete := true }

end roomDetection

namespace enhancedRoomDetection

/-- The ROOM_TYPES mapping of enhancedRoomDetection.py (lines 37-46). -/
def ROOM_TYPES : List (String × String) :=
  [("large_square", "office"), ("large_rectangle", "classroom"),
   ("medium_square", "conference"), ("small_square", "storage"),
   ("small_rectangle", "restroom"), ("corridor", "hallway"),
   ("entrance", "reception"), ("tiny", "utility")]

/-- Python dict access ROOM_TYPES[k]; every key used by the classifier is
present, so the KeyError default is never reached. -/
def room_type_of (k : String) : String :=
  (ROOM_TYPES.lookup k).getD ""

/-- Room classifier of enhancedRoomDetection.py (lines 184-217) after the
division area / total_area has been performed. -/
def classify_rel (rel r : ℚ) : String :=
  if rel > 3/20 then
    if 3/4 < r ∧ r < 3/2 then room_type_of "large_square"
    else room_type_of "large_rectangle"
  else if rel > 1/20 then
    if 3/4 < r ∧ r < 3/2 then room_type_of "medium_square"
    else if r > 3 then room_type_of "corridor"
    else room_type_of "large_rectangle"
  else if rel > 1/100 then
    if 3/4 < r ∧ r < 3/2 then room_type_of "small_square"
    else room_type_of "small_rectangle"
  else
    if r > 3 then room_type_of "corridor"
    else room_type_of "tiny"

/-- classify_room_type of enhancedRoomDetection.py: the unguarded division
rel_area = area / total_area raises ZeroDivisionError in Python when
total_area = 0, modelled as none. -/
def classify_room_type (area r total_area : ℚ) : Option String :=
  if total_area = 0 then none else some (classify_rel (area / total_area) r)

end enhancedRoomDetection

/-- A room record built by enhancedRoomDetection.find_room_polygons: the
simplified contour together with bounding box, area (of the unsimplified
contour) and aspect ratio. -/
structure ERoom where
  contour : Contour
  x : ℤ
  y : ℤ
  width : ℤ
  height : ℤ
  area : ℚ
  aspect : ℚ
deriving DecidableEq

namespace enhancedRoomDetection

/-- find_room_polygons (lines 133-182) restricted to its filtering logic: the
line rasterization, morphological closing and cv2.findContours are abstracted
as the input contour list, and cv2.approxPolyDP as the abstract simplify
function. A contour is kept when its area lies strictly inside
(0.003 * height * width, 0.5 * height * width) and the aspect ratio of the
simplified contour's bounding box lies strictly inside (0.2, 5.0). -/
def find_room_polygons (simplify : Contour → Contour) (height width : ℕ)
    (contours : List Contour) : List ERoom :=
  contours.filterMap fun c =>
    if ((height * width : ℕ) : ℚ) * (3/1000) < contourArea c ∧
        contourArea c < ((height * width : ℕ) : ℚ) * (5/10) then
      if (1/5 : ℚ) < aspect_of (boundingRect (simplify c)) ∧
          aspect_of (boundingRect (simplify c)) < 5 then
        some { contour := simplify c,
               x := (boundingRect (simplify c)).x, y := (boundingRect (simplify c)).y,
               width := (boundingRect (simplify c)).w,
               height := (boundingRect (simplify c)).h,
               area := contourArea c, aspect := aspect_of (boundingRect (simplify c)) }
      else none
    else none

/-- remove_overlapping_rooms (lines 294-324): early return on the empty list,
otherwise the greedy resolver with threshold 0.6. -/
def remove_overlapping_rooms (rooms : List Room) : List Room :=
  if rooms = [] then [] else dedup_rooms (6/10) rooms

/-- Result assembly at the end of process_floor_plan (lines 381-403): the
record is emitted unconditionally with processingComplete = true and
enhancedDetection = true; there is no zero-candidate check. -/
def assemble_result (source : String) (width height : ℕ) (floor : String)
    (filtered : List (List (String × Value))) : Outcome EResultRecord :=
  Outcome.completed
    { source := source, width := width, height := height, floor := floor,
      rooms := filtered.map rooms_json_entry, processingComplete := true,
      enhancedDetection := true }

end enhancedRoomDetection

/-- Disjoint area bands underlying the ordered if-chain of
roomDetection.classify_room_type: very large, large, medium, small, very
small. -/
def rd_band (i : Fin 5) (rel : ℚ) : Prop :=
  if i.val = 0 then 1/4 < rel
  else if i.val = 1 then 3/20 < rel ∧ rel ≤ 1/4
  else if i.val = 2 then 1/20 < rel ∧ rel ≤ 3/20
  else if i.val = 3 then 1/50 < rel ∧ rel ≤ 1/20
  else rel ≤ 1/50

/-- Aspect-ratio sub-branch labels of each roomDetection band. -/
def rd_band_label (i : Fin 5) (r : ℚ) : String :=
  if i.val = 0 then (if r > 3 then "hallway" else "hall")
  else if i.val = 1 then
    (if 7/10 < r ∧ r < 13/10 then "conference"
     else if r > 2 then "hallway" else "classroom")
  else if i.val = 2 then
    (if 7/10 < r ∧ r < 13/10 then "office"
     else if r > 3 then "hallway" else "laboratory")
  else if i.val = 3 then
    (if 7/10 < r ∧ r < 13/10 then "storage"
     else if r > 5/2 then "corridor" else "office")
  else
    (if 7/10 < r ∧ r < 13/10 then "utility"
     else if r > 3 then "corridor" else "storage")

/-- Disjoint area bands underlying the ordered if-chain of
enhancedRoomDetection.classify_room_type: large, medium, small, tiny. -/
def en_band (i : Fin 4) (rel : ℚ) : Prop :=
  if i.val = 0 then 3/20 < rel
  else if i.val = 1 then 1/20 < rel ∧ rel ≤ 3/20
  else if i.val = 2 then 1/100 < rel ∧ rel ≤ 1/20
  else rel ≤ 1/100

/-- Aspect-ratio sub-branch labels of each enhancedRoomDetection band. -/
def en_band_label (i : Fin 4) (r : ℚ) : String :=
  if i.val = 0 then
    (if 3/4 < r ∧ r < 3/2 then enhancedRoomDetection.room_type_of "large_square"
     else enhancedRoomDetection.room_type_of "large_rectangle")
  else if i.val = 1 then
    (if 3/4 < r ∧ r < 3/2 then enhancedRoomDetection.room_type_of "medium_square"
     else if r > 3 then enhancedRoomDetection.room_type_of "corridor"
     else enhancedRoomDetection.room_type_of "large_rectangle")
  else if i.val = 2 then
    (if 3/4 < r ∧ r < 3/2 then enhancedRoomDetection.room_type_of "small_square"
     else enhancedRoomDetection.room_type_of "small_rectangle")
  else
    (if r > 3 then enhancedRoomDetection.room_type_of "corridor"
     else enhancedRoomDetection.room_type_of "tiny")

/-- Concrete rooms for the C1 witness: two disjoint boxes. -/
def roomA : Room := { x := 0, y := 0, width := 10, height := 10, area := 100, aspect := 1 }

/-- Second room of the C1 witness, disjoint from roomA. -/
def roomB : Room := { x := 20, y := 20, width := 5, height := 5, area := 25, aspect := 1 }

/-- Larger room of the C2 witness. -/
def roomC : Room := { x := 0, y := 0, width := 10, height := 10, area := 100, aspect := 1 }

/-- Smaller room of the C2 witness: its bounding box meets roomC in an 8 x 8
region of area 64 = 0.8 * 80, eighty percent of its own area. -/
def roomD : Room := { x := 2, y := 0, width := 10, height := 8, area := 80, aspect := 5/4 }

/-- First index into the C1 witness list. -/
def idxA : Fin (roomDetection.filtered_rooms [roomA, roomB]).length :=
  ⟨0, by norm_num [roomDetection.filtered_rooms, dedup_rooms, dedup_step,
    List.insertionSort, List.orderedInsert, roomA, roomB, overlap_area,
    min_def, max_def]⟩

/-- Second index into the C1 witness list. -/
def idxB : Fin (roomDetection.filtered_rooms [roomA, roomB]).length :=
  ⟨1, by norm_num [roomDetection.filtered_rooms, dedup_rooms, dedup_step,
    List.insertionSort, List.orderedInsert, roomA, roomB, overlap_area,
    min_def, max_def]⟩

/-- A 100 x 100 square contour used by the C3 witness. -/
def cSquare : Contour := [(0, 0), (100, 0), (100, 100), (0, 100)]

/-- The room record produced from cSquare at total area 100000. -/
def rSquare : Room :=
  { x := 0, y := 0, width := 101, height := 101, area := 10000, aspect := 1 }

/-- Larger contour for the C7 witness (area 16). -/
def cBig : Contour := [(0, 0), (4, 0), (4, 4), (0, 4)]

/-- Smaller contour for the C7 witness (area 4). -/
def cSmall : Contour := [(0, 0), (2, 0), (2, 2), (0, 2)]

/-- An all-dark binarized image: every pixel is a wall pixel (value 0), so no
seed probe can qualify. -/
def all_dark : ℤ → ℤ → ℕ := fun _ _ => 0

theorem overlap_area_comm (a b : Room) : overlap_area a b = overlap_area b a := by
  unfold overlap_area
  rw [min_comm (a.x + a.width) (b.x + b.width), max_comm a.x b.x,
    min_comm (a.y + a.height) (b.y + b.height), max_comm a.y b.y]

theorem no_big_overlap_symm {thr : ℚ} {a b : Room} (h : no_big_overlap thr a b) :
    no_big_overlap thr b a := by
  unfold no_big_overlap at h ⊢
  rwa [overlap_area_comm b a, min_comm b.area a.area]

theorem dedup_loop_pairwise (thr : ℚ) (l : List Room) :
    ∀ acc : List Room, List.Pairwise (no_big_overlap thr) acc →
      List.Pairwise (no_big_overlap thr) (List.foldl (dedup_step thr) acc l) := by
  induction l with
  | nil => intro acc h; simpa using h
  | cons r rest ih =>
    intro acc h
    rw [List.foldl_cons]
    apply ih
    unfold dedup_step
    split_ifs with hall
    · rw [List.pairwise_append]
      refine ⟨h, by simp, ?_⟩
      intro a ha b hb
      rw [List.mem_singleton] at hb
      subst hb
      have hx := List.all_eq_true.mp hall a ha
      simp only [Bool.not_eq_true', decide_eq_false_iff_not, not_lt] at hx
      exact no_big_overlap_symm hx
    · exact h

theorem dedup_rooms_pairwise (thr : ℚ) (rooms : List Room) :
    List.Pairwise (no_big_overlap thr) (dedup_rooms thr rooms) :=
  dedup_loop_pairwise thr _ [] List.Pairwise.nil

theorem remove_overlapping_pairwise (rooms : List Room) :
    List.Pairwise (no_big_overlap (6/10))
      (enhancedRoomDetection.remove_overlapping_rooms rooms) := by
  unfold enhancedRoomDetection.remove_overlapping_rooms
  split_ifs
  · exact List.Pairwise.nil
  · exact dedup_rooms_pairwise _ _

theorem pairwise_get_of_ne {R : Room → Room → Prop} (hsymm : ∀ {a b}, R a b → R b a)
    {l : List Room} (h : List.Pairwise R l) (i j : Fin l.length) (hij : i ≠ j) :
    R (l.get i) (l.get j) := by
  rcases lt_or_gt_of_ne hij with hlt | hlt
  · exact List.pairwise_iff_get.mp h i j hlt
  · exact hsymm (List.pairwise_iff_get.mp h j i hlt)

/-- C1: overlap invariant of the final room list. For every pair of distinct
positions in the list returned by the overlap-resolution step (the inline
dedup loop of roomDetection.process_floorplan, fraction 0.7, and
enhancedRoomDetection.remove_overlapping_rooms, fraction 0.6), the
bounding-box intersection area of the two rooms is at most the configured
fraction of the smaller of the two rooms' areas. -/
theorem C1_overlap_invariant :
    (∀ (rooms : List Room)
        (i j : Fin (roomDetection.filtered_rooms rooms).length), i ≠ j →
        ((overlap_area ((roomDetection.filtered_rooms rooms).get i)
            ((roomDetection.filtered_rooms rooms).get j) : ℤ) : ℚ)
          ≤ (7/10) * min ((roomDetection.filtered_rooms rooms).get i).area
              ((roomDetection.filtered_rooms rooms).get j).area)
  ∧ (∀ (rooms : List Room)
        (i j : Fin (enhancedRoomDetection.remove_overlapping_rooms rooms).length),
        i ≠ j →
        ((overlap_area ((enhancedRoomDetection.remove_overlapping_rooms rooms).get i)
            ((enhancedRoomDetection.remove_overlapping_rooms rooms).get j) : ℤ) : ℚ)
          ≤ (6/10) * min
              ((enhancedRoomDetection.remove_overlapping_rooms rooms).get i).area
              ((enhancedRoomDetection.remove_overlapping_rooms rooms).get j).area) := by
  constructor
  · intro rooms i j hij
    exact pairwise_get_of_ne (fun h => no_big_overlap_symm h)
      (dedup_rooms_pairwise (7/10) rooms) i j hij
  · intro rooms i j hij
    exact pairwise_get_of_ne (fun h => no_big_overlap_symm h)
      (remove_overlapping_pairwise rooms) i j hij

theorem C1_overlap_invariant_witness :
    ((overlap_area ((roomDetection.filtered_rooms [roomA, roomB]).get idxA)
        ((roomDetection.filtered_rooms [roomA, roomB]).get idxB) : ℤ) : ℚ)
      ≤ (7/10) * min ((roomDetection.filtered_rooms [roomA, roomB]).get idxA).area
          ((roomDetection.filtered_rooms [roomA, roomB]).get idxB).area :=
  C1_overlap_invariant.1 [roomA, roomB] idxA idxB (Fin.ne_of_val_ne (by decide))

theorem dedup_step_accept (thr : ℚ) (acc : List Room) (r : Room)
    (h : ∀ e ∈ acc, (overlap_area r e : ℚ) ≤ thr * min r.area e.area) :
    dedup_step thr acc r = acc ++ [r] := by
  unfold dedup_step
  have hc : (acc.all
      (fun e => !(decide ((overlap_area r e : ℚ) > thr * min r.area e.area)))) = true := by
    rw [List.all_eq_true]
    intro e he
    simp only [Bool.not_eq_true', decide_eq_false_iff_not, not_lt]
    exact h e he
  rw [if_pos hc]

theorem dedup_step_reject (thr : ℚ) (acc : List Room) (r e : Room) (he : e ∈ acc)
    (hgt : (overlap_area r e : ℚ) > thr * min r.area e.area) :
    dedup_step thr acc r = acc := by
  unfold dedup_step
  have hc : ¬((acc.all
      (fun e => !(decide ((overlap_area r e : ℚ) > thr * min r.area e.area)))) = true) := by
    intro hall
    have hx := List.all_eq_true.mp hall e he
    simp only [Bool.not_eq_true', decide_eq_false_iff_not, not_lt] at hx
    exact absurd hgt (not_lt.mpr hx)
  rw [if_neg hc]

theorem dedup_two_drops (thr : ℚ) (hthr : thr < 8/10) (r1 r2 : Room)
    (harea : r2.area ≤ r1.area) (hpos : 0 < r2.area)
    (hov : ((overlap_area r1 r2 : ℤ) : ℚ) = (8/10) * r2.area) :
    dedup_rooms thr [r1, r2] = [r1] := by
  have hsort : List.insertionSort (fun a b : Room => b.area ≤ a.area) [r1, r2]
      = [r1, r2] := by
    simp [List.insertionSort, List.orderedInsert, harea]
  have hgt : (overlap_area r2 r1 : ℚ) > thr * min r2.area r1.area := by
    rw [overlap_area_comm r2 r1, hov, min_eq_left harea]
    exact mul_lt_mul_of_pos_right hthr hpos
  unfold dedup_rooms
  rw [hsort]
  simp only [List.foldl_cons, List.foldl_nil]
  rw [dedup_step_accept thr [] r1 (by intro e he; exact absurd he (List.not_mem_nil e)),
    List.nil_append]
  exact dedup_step_reject thr [r1] r2 r1 (List.mem_singleton_self r1) hgt

/-- C2: overlap resolution is greedy over descending area and the larger room
wins: for any two rooms where the smaller one's bounding box meets the larger
in exactly eighty percent of the smaller area, both resolvers (threshold 0.7
in roomDetection.process_floorplan, threshold 0.6 in
enhancedRoomDetection.remove_overlapping_rooms) keep only the larger room and
discard the smaller one. -/
theorem C2_larger_room_wins (r1 r2 : Room) (harea : r2.area ≤ r1.area)
    (hpos : 0 < r2.area)
    (hov : ((overlap_area r1 r2 : ℤ) : ℚ) = (8/10) * r2.area) :
    roomDetection.filtered_rooms [r1, r2] = [r1]
      ∧ enhancedRoomDetection.remove_overlapping_rooms [r1, r2] = [r1] := by
  constructor
  · exact dedup_two_drops (7/10) (by norm_num) r1 r2 harea hpos hov
  · unfold enhancedRoomDetection.remove_overlapping_rooms
    rw [if_neg (by simp)]
    exact dedup_two_drops (6/10) (by norm_num) r1 r2 harea hpos hov

theorem C2_larger_room_wins_witness :
    roomDetection.filtered_rooms [roomC, roomD] = [roomC]
      ∧ enhancedRoomDetection.remove_overlapping_rooms [roomC, roomD] = [roomC] :=
  C2_larger_room_wins roomC roomD (by norm_num [roomC, roomD]) (by norm_num [roomD])
    (by norm_num [roomC, roomD, overlap_area, min_def, max_def])

/-- C3: area-band and aspect-ratio-band invariant. Every room candidate that
survives the per-region filter of roomDetection.process_floorplan has area
within [0.003, 0.6] of the total image area and aspect ratio strictly inside
(0.1, 10); every candidate surviving the filter of
enhancedRoomDetection.find_room_polygons has area within [0.003, 0.5] of the
total image area and aspect ratio strictly inside (0.2, 5.0). -/
theorem C3_area_aspect_bands :
    (∀ (total : ℚ) (cs : List (Option Contour)) (r : Room),
        r ∈ roomDetection.build_rooms total cs →
          total * (3/1000) ≤ r.area ∧ r.area ≤ total * (6/10) ∧
            (1/10 : ℚ) < r.aspect ∧ r.aspect < 10)
  ∧ (∀ (simplify : Contour → Contour) (height width : ℕ) (cs : List Contour)
        (r : ERoom),
        r ∈ enhancedRoomDetection.find_room_polygons simplify height width cs →
          ((height * width : ℕ) : ℚ) * (3/1000) ≤ r.area ∧
            r.area ≤ ((height * width : ℕ) : ℚ) * (5/10) ∧
            (1/5 : ℚ) < r.aspect ∧ r.aspect < 5) := by
  constructor
  · intro total cs r hr
    rw [roomDetection.build_rooms, List.mem_filterMap] at hr
    obtain ⟨c, _, hcr⟩ := hr
    match c with
    | none => simp [roomDetection.region_room] at hcr
    | some pts =>
      simp only [roomDetection.region_room] at hcr
      by_cases hcond : total * (3/1000) < contourArea pts ∧
          contourArea pts < total * (6/10) ∧
          (1/10 : ℚ) < aspect_of (boundingRect pts) ∧ aspect_of (boundingRect pts) < 10
      · rw [if_pos hcond, Option.some_inj] at hcr
        obtain ⟨h1, h2, h3, h4⟩ := hcond
        subst hcr
        exact ⟨le_of_lt h1, le_of_lt h2, h3, h4⟩
      · rw [if_neg hcond] at hcr
        exact absurd hcr (by simp)
  · intro simplify height width cs r hr
    rw [enhancedRoomDetection.find_room_polygons, List.mem_filterMap] at hr
    obtain ⟨c, _, hcr⟩ := hr
    by_cases h1 : ((height * width : ℕ) : ℚ) * (3/1000) < contourArea c ∧
        contourArea c < ((height * width : ℕ) : ℚ) * (5/10)
    · rw [if_pos h1] at hcr
      by_cases h2 : (1/5 : ℚ) < aspect_of (boundingRect (simplify c)) ∧
          aspect_of (boundingRect (simplify c)) < 5
      · rw [if_pos h2, Option.some_inj] at hcr
        subst hcr
        exact ⟨le_of_lt h1.1, le_of_lt h1.2, h2.1, h2.2⟩
      · rw [if_neg h2] at hcr
        exact absurd hcr (by simp)
    · rw [if_neg h1] at hcr
      exact absurd hcr (by simp)

theorem C3_area_aspect_bands_witness :
    (100000 : ℚ) * (3/1000) ≤ rSquare.area ∧ rSquare.area ≤ (100000 : ℚ) * (6/10) ∧
      (1/10 : ℚ) < rSquare.aspect ∧ rSquare.aspect < 10 :=
  C3_area_aspect_bands.1 100000 [some cSquare] rSquare
    (by norm_num [roomDetection.build_rooms, roomDetection.region_room, List.filterMap,
      cSquare, rSquare, contourArea, cross_sum, boundingRect, aspect_of, min_def, max_def])

theorem foldl_py_max_mem (f : α → ℚ) (l : List α) :
    ∀ b : α, l.foldl (py_max_step f) b ∈ b :: l := by
  induction l with
  | nil => intro b; simp
  | cons d rest ih =>
    intro b
    rw [List.foldl_cons]
    by_cases hc : f d > f b
    · rw [show py_max_step f b d = d from by rw [py_max_step, if_pos hc]]
      exact List.mem_cons_of_mem b (ih d)
    · rw [show py_max_step f b d = b from by rw [py_max_step, if_neg hc]]
      rcases List.mem_cons.mp (ih b) with h | h
      · rw [h]
        exact List.mem_cons_self b _
      · exact List.mem_cons_of_mem b (List.mem_cons_of_mem d h)

theorem foldl_py_max_ge (f : α → ℚ) (l : List α) :
    ∀ b : α, f b ≤ f (l.foldl (py_max_step f) b)
      ∧ ∀ d ∈ l, f d ≤ f (l.foldl (py_max_step f) b) := by
  induction l with
  | nil => intro b; exact ⟨le_refl _, by simp⟩
  | cons d rest ih =>
    intro b
    rw [List.foldl_cons]
    obtain ⟨h1, h2⟩ := ih (py_max_step f b d)
    have hbd : f b ≤ f (py_max_step f b d) ∧ f d ≤ f (py_max_step f b d) := by
      rw [py_max_step]
      by_cases hc : f d > f b
      · rw [if_pos hc]
        exact ⟨le_of_lt hc, le_refl _⟩
      · rw [if_neg hc]
        exact ⟨le_refl _, not_lt.mp hc⟩
    refine ⟨le_trans hbd.1 h1, ?_⟩
    intro e he
    rcases List.mem_cons.mp he with he | he
    · subst he
      exact le_trans hbd.2 h1
    · exact h2 e he

/-- C7: the Region Locator result on the seed-anchored path is an option, not
an exception: get_room_contour returns none exactly when contour extraction
yields no contours, otherwise it returns a contour of maximal enclosed area
among those extracted; and the caller's detection loop contributes zero rooms
for a hint whose contour is none. -/
theorem C7_region_locator_option :
    (∀ contours : List Contour,
        roomDetection.get_room_contour contours = none ↔ contours = [])
  ∧ (∀ (contours : List Contour) (c : Contour),
        roomDetection.get_room_contour contours = some c →
          c ∈ contours ∧ ∀ d ∈ contours, contourArea d ≤ contourArea c)
  ∧ (∀ (total : ℚ) (cs : List (Option Contour)),
        roomDetection.build_rooms total (none :: cs)
          = roomDetection.build_rooms total cs) := by
  refine ⟨?_, ?_, ?_⟩
  · intro contours
    match contours with
    | [] => simp [roomDetection.get_room_contour]
    | c :: rest => simp [roomDetection.get_room_contour]
  · intro contours c hc
    match contours with
    | [] => simp [roomDetection.get_room_contour] at hc
    | b :: rest =>
      simp only [roomDetection.get_room_contour, Option.some_inj] at hc
      subst hc
      refine ⟨foldl_py_max_mem contourArea rest b, ?_⟩
      intro d hd
      rcases List.mem_cons.mp hd with hd | hd
      · subst hd
        exact (foldl_py_max_ge contourArea rest d).1
      · exact (foldl_py_max_ge contourArea rest b).2 d hd
  · intro total cs
    simp [roomDetection.build_rooms, List.filterMap_cons, roomDetection.region_room]

theorem C7_region_locator_option_witness :
    cBig ∈ [cBig, cSmall] ∧ ∀ d ∈ [cBig, cSmall], contourArea d ≤ contourArea cBig :=
  C7_region_locator_option.2.1 [cBig, cSmall] cBig
    (by norm_num [roomDetection.get_room_contour, py_max_step, contourArea, cross_sum,
      cBig, cSmall])

theorem find_seed_eq_find (binary : ℤ → ℤ → ℕ) (width height : ℤ)
    (l : List (ℤ × ℤ)) :
    roomDetection.find_seed binary width height l
      = l.find? (roomDetection.is_valid_seed binary width height) := by
  induction l with
  | nil => rfl
  | cons p rest ih =>
    simp only [roomDetection.find_seed]
    by_cases hp : 0 ≤ p.1 ∧ p.1 < width ∧ 0 ≤ p.2 ∧ p.2 < height ∧ binary p.2 p.1 = 255
    · rw [if_pos hp, List.find?_cons_of_pos _ (by simp [roomDetection.is_valid_seed, hp])]
    · rw [if_neg hp, List.find?_cons_of_neg _ (by simp [roomDetection.is_valid_seed, hp]),
        ih]

/-- C4: seed-pixel selection for the seed-anchored flood fill. The probe list
is exactly above, below, left, right of the hint's center in that priority
order; the chosen seed is the first probe inside image bounds on a light
(255) pixel; and when no probe qualifies the seed falls back to the hint's
center, wall pixel or not. -/
theorem C4_seed_selection (binary : ℤ → ℤ → ℕ) (width height : ℤ) (x y w h : ℕ) :
    roomDetection.get_seed_point binary width height x y w h
      = (List.find? (roomDetection.is_valid_seed binary width height)
          [(roomDetection.center_x x w, roomDetection.center_y y h - (h : ℤ)),
           (roomDetection.center_x x w, roomDetection.center_y y h + (h : ℤ)),
           (roomDetection.center_x x w - (w : ℤ), roomDetection.center_y y h),
           (roomDetection.center_x x w + (w : ℤ), roomDetection.center_y y h)]).getD
          (roomDetection.center_x x w, roomDetection.center_y y h)
    ∧ ((∀ p ∈ roomDetection.seed_candidates x y w h,
          roomDetection.is_valid_seed binary width height p = false) →
        roomDetection.get_seed_point binary width height x y w h
          = (roomDetection.center_x x w, roomDetection.center_y y h)) := by
  constructor
  · rw [roomDetection.get_seed_point, find_seed_eq_find]
    rfl
  · intro hall
    rw [roomDetection.get_seed_point, find_seed_eq_find,
      List.find?_eq_none.mpr (fun p hp => by simp [hall p hp])]
    rfl

theorem C4_seed_selection_witness :
    roomDetection.get_seed_point all_dark 100 100 10 10 4 4
      = (roomDetection.center_x 10 4, roomDetection.center_y 10 4) :=
  (C4_seed_selection all_dark 100 100 10 10 4 4).2 (by decide)

theorem rd_band_exists_unique (rel : ℚ) : ∃! i : Fin 5, rd_band i rel := by
  rcases lt_or_le (1/4 : ℚ) rel with h1 | h1
  · refine ⟨0, h1, ?_⟩
    intro j hj
    apply Fin.ext
    fin_cases j <;> norm_num [rd_band] at hj <;>
      first
      | rfl
      | (exfalso; obtain ⟨hja, hjb⟩ := hj; linarith)
      | (exfalso; linarith)
  rcases lt_or_le (3/20 : ℚ) rel with h2 | h2
  · refine ⟨1, ⟨h2, h1⟩, ?_⟩
    intro j hj
    apply Fin.ext
    fin_cases j <;> norm_num [rd_band] at hj <;>
      first
      | rfl
      | (exfalso; obtain ⟨hja, hjb⟩ := hj; linarith)
      | (exfalso; linarith)
  rcases lt_or_le (1/20 : ℚ) rel with h3 | h3
  · refine ⟨2, ⟨h3, h2⟩, ?_⟩
    intro j hj
    apply Fin.ext
    fin_cases j <;> norm_num [rd_band] at hj <;>
      first
      | rfl
      | (exfalso; obtain ⟨hja, hjb⟩ := hj; linarith)
      | (exfalso; linarith)
  rcases lt_or_le (1/50 : ℚ) rel with h4 | h4
  · refine ⟨3, ⟨h4, h3⟩, ?_⟩
    intro j hj
    apply Fin.ext
    fin_cases j <;> norm_num [rd_band] at hj <;>
      first
      | rfl
      | (exfalso; obtain ⟨hja, hjb⟩ := hj; linarith)
      | (exfalso; linarith)
  · refine ⟨4, h4, ?_⟩
    intro j hj
    apply Fin.ext
    fin_cases j <;> norm_num [rd_band] at hj <;>
      first
      | rfl
      | (exfalso; obtain ⟨hja, hjb⟩ := hj; linarith)
      | (exfalso; linarith)

theorem en_band_exists_unique (rel : ℚ) : ∃! i : Fin 4, en_band i rel := by
  rcases lt_or_le (3/20 : ℚ) rel with h1 | h1
  · refine ⟨0, h1, ?_⟩
    intro j hj
    apply Fin.ext
    fin_cases j <;> norm_num [en_band] at hj <;>
      first
      | rfl
      | (exfalso; obtain ⟨hja, hjb⟩ := hj; linarith)
      | (exfalso; linarith)
  rcases lt_or_le (1/20 : ℚ) rel with h2 | h2
  · refine ⟨1, ⟨h2, h1⟩, ?_⟩
    intro j hj
    apply Fin.ext
    fin_cases j <;> norm_num [en_band] at hj <;>
      first
      | rfl
      | (exfalso; obtain ⟨hja, hjb⟩ := hj; linarith)
      | (exfalso; linarith)
  rcases lt_or_le (1/100 : ℚ) rel with h3 | h3
  · refine ⟨2, ⟨h3, h2⟩, ?_⟩
    intro j hj
    apply Fin.ext
    fin_cases j <;> norm_num [en_band] at hj <;>
      first
      | rfl
      | (exfalso; obtain ⟨hja, hjb⟩ := hj; linarith)
      | (exfalso; linarith)
  · refine ⟨3, h3, ?_⟩
    intro j hj
    apply Fin.ext
    fin_cases j <;> norm_num [en_band] at hj <;>
      first
      | rfl
      | (exfalso; obtain ⟨hja, hjb⟩ := hj; linarith)
      | (exfalso; linarith)

theorem rd_classify_band (rel r : ℚ) (i : Fin 5) (hb : rd_band i rel) :
    roomDetection.classify_rel rel r = rd_band_label i r := by
  fin_cases i <;> norm_num [rd_band] at hb <;>
    simp only [roomDetection.classify_rel]
  · rw [if_pos hb]
    rfl
  · rw [if_neg (not_lt.mpr hb.2), if_pos hb.1]
    rfl
  · rw [if_neg (not_lt.mpr (le_trans hb.2 (by norm_num))), if_neg (not_lt.mpr hb.2),
      if_pos hb.1]
    rfl
  · rw [if_neg (not_lt.mpr (le_trans hb.2 (by norm_num))),
      if_neg (not_lt.mpr (le_trans hb.2 (by norm_num))), if_neg (not_lt.mpr hb.2),
      if_pos hb.1]
    rfl
  · rw [if_neg (not_lt.mpr (le_trans hb (by norm_num))),
      if_neg (not_lt.mpr (le_trans hb (by norm_num))),
      if_neg (not_lt.mpr (le_trans hb (by norm_num))), if_neg (not_lt.mpr hb)]
    rfl

theorem en_classify_band (rel r : ℚ) (i : Fin 4) (hb : en_band i rel) :
    enhancedRoomDetection.classify_rel rel r = en_band_label i r := by
  fin_cases i <;> norm_num [en_band] at hb <;>
    simp only [enhancedRoomDetection.classify_rel]
  · rw [if_pos hb]
    rfl
  · rw [if_neg (not_lt.mpr hb.2), if_pos hb.1]
    rfl
  · rw [if_neg (not_lt.mpr (le_trans hb.2 (by norm_num))), if_neg (not_lt.mpr hb.2),
      if_pos hb.1]
    rfl
  · rw [if_neg (not_lt.mpr (le_trans hb (by norm_num))),
      if_neg (not_lt.mpr (le_trans hb (by norm_num))), if_neg (not_lt.mpr hb)]
    rfl

/-- C5: classifier determinism and branch exclusivity. Both classify_room_type
functions are pure (equal inputs give equal labels); every relative area falls
into exactly one of the disjoint area bands underlying the ordered if-chains
(so boundary values such as rel = 0.15 resolve to a single branch); and on
each band the classifier returns exactly that band's aspect-ratio sub-branch
label. -/
theorem C5_classifier_det_exclusive :
    (∀ a r t a2 r2 t2 : ℚ, a = a2 → r = r2 → t = t2 →
        roomDetection.classify_room_type a r t = roomDetection.classify_room_type a2 r2 t2
          ∧ enhancedRoomDetection.classify_room_type a r t
              = enhancedRoomDetection.classify_room_type a2 r2 t2)
  ∧ (∀ rel : ℚ, ∃! i : Fin 5, rd_band i rel)
  ∧ (∀ rel : ℚ, ∃! i : Fin 4, en_band i rel)
  ∧ (∀ (a r t : ℚ) (i : Fin 5), t ≠ 0 → rd_band i (a / t) →
        roomDetection.classify_room_type a r t = some (rd_band_label i r))
  ∧ (∀ (a r t : ℚ) (i : Fin 4), t ≠ 0 → en_band i (a / t) →
        enhancedRoomDetection.classify_room_type a r t = some (en_band_label i r)) := by
  refine ⟨?_, rd_band_exists_unique, en_band_exists_unique, ?_, ?_⟩
  · intro a r t a2 r2 t2 ha hr ht
    subst ha
    subst hr
    subst ht
    exact ⟨rfl, rfl⟩
  · intro a r t i ht hb
    unfold roomDetection.classify_room_type
    rw [if_neg ht, rd_classify_band (a/t) r i hb]
  · intro a r t i ht hb
    unfold enhancedRoomDetection.classify_room_type
    rw [if_neg ht, en_classify_band (a/t) r i hb]

theorem C5_classifier_det_exclusive_witness :
    roomDetection.classify_room_type 3 1 20 = some (rd_band_label 2 1) :=
  C5_classifier_det_exclusive.2.2.2.1 3 1 20 2 (by norm_num)
    ⟨by norm_num, by norm_num⟩

/-- C6: end-to-end classification of the reference scenario restricted to the
classifier step: under the wall-reconstruction variant, a 200 x 150 room in a
400 x 300 image (relative area 0.25, aspect ratio 200/150) is labelled
"office". -/
theorem C6_reference_scenario_office :
    enhancedRoomDetection.classify_room_type (200 * 150) (200/150) (400 * 300)
      = some "office" := by
  have h1 : (200 * 150 : ℚ) / (400 * 300) > 3/20 := by norm_num
  have h2 : (3/4 : ℚ) < 200/150 ∧ (200/150 : ℚ) < 3/2 := by norm_num
  simp only [enhancedRoomDetection.classify_room_type,
    enhancedRoomDetection.classify_rel]
  rw [if_neg (by norm_num : ¬(400 * 300 : ℚ) = 0), if_pos h1, if_pos h2]
  rfl

theorem lookup_strip (room : List (String × Value)) (k : String) (hk : k ≠ "contour") :
    (rooms_json_entry room).lookup k = room.lookup k := by
  induction room with
  | nil => rfl
  | cons kv rest ih =>
    obtain ⟨k1, v1⟩ := kv
    by_cases h1 : k1 = "contour"
    · subst h1
      rw [rooms_json_entry, List.filter_cons]
      simp only [bne_self_eq_false, Bool.false_eq_true, if_false]
      rw [show (rest.filter (fun kv => kv.1 != "contour")) = rooms_json_entry rest from rfl,
        ih, List.lookup_cons, beq_eq_false_iff_ne.mpr hk]
    · rw [rooms_json_entry, List.filter_cons]
      simp only [bne_iff_ne, ne_eq, h1, not_false_eq_true, if_true]
      rw [List.lookup_cons, List.lookup_cons]
      cases hbe : (k == k1)
      · rw [show (rest.filter (fun kv => kv.1 != "contour")) = rooms_json_entry rest from rfl,
          ih]
      · rfl

theorem lookup_contour_gone (room : List (String × Value)) :
    (rooms_json_entry room).lookup "contour" = none := by
  induction room with
  | nil => rfl
  | cons kv rest ih =>
    obtain ⟨k1, v1⟩ := kv
    by_cases h1 : k1 = "contour"
    · subst h1
      rw [rooms_json_entry, List.filter_cons]
      simp only [bne_self_eq_false, Bool.false_eq_true, if_false]
      exact ih
    · rw [rooms_json_entry, List.filter_cons]
      simp only [bne_iff_ne, ne_eq, h1, not_false_eq_true, if_true]
      rw [List.lookup_cons, beq_eq_false_iff_ne.mpr (fun he => h1 he.symm)]
      exact ih

/-- C9: frame property of the external record. Serializing a room dict built
by the detection loop removes exactly the contour entry, leaving id, name,
type, x, y, width, height, area, aspect_ratio and confidence unchanged; in
general the serialization preserves the looked-up value of every key other
than "contour" and leaves no "contour" key. -/
theorem C9_strip_contour_frame :
    (∀ (id name rtype : String) (x y w h area : ℤ) (ar : ℚ)
        (contour : List (List ℤ)),
        rooms_json_entry (roomDetection.room_dict id name rtype x y w h area ar contour)
          = [("id", Value.s id), ("name", Value.s name), ("type", Value.s rtype),
             ("x", Value.i x), ("y", Value.i y), ("width", Value.i w),
             ("height", Value.i h), ("area", Value.i area),
             ("aspect_ratio", Value.q ar), ("confidence", Value.q (17/20))])
  ∧ (∀ (room : List (String × Value)) (k : String), k ≠ "contour" →
        (rooms_json_entry room).lookup k = room.lookup k)
  ∧ (∀ room : List (String × Value),
        (rooms_json_entry room).lookup "contour" = none) := by
  refine ⟨?_, lookup_strip, lookup_contour_gone⟩
  intro id name rtype x y w h area ar contour
  rfl

theorem C9_strip_contour_frame_witness :
    (rooms_json_entry [("area", Value.i 5), ("contour", Value.pts [[0, 0]])]).lookup "area"
      = ([("area", Value.i 5), ("contour", Value.pts [[0, 0]])]
          : List (String × Value)).lookup "area" :=
  C9_strip_contour_frame.2.1 [("area", Value.i 5), ("contour", Value.pts [[0, 0]])]
    "area" (by decide)

theorem rd_classify_rel_mem (rel r : ℚ) :
    roomDetection.classify_rel rel r ∈
      ["hallway", "hall", "conference", "classroom", "office", "laboratory",
       "storage", "corridor", "utility"] := by
  unfold roomDetection.classify_rel
  split_ifs <;> decide

theorem en_classify_rel_mem (rel r : ℚ) :
    enhancedRoomDetection.classify_rel rel r
      ∈ enhancedRoomDetection.ROOM_TYPES.map Prod.snd := by
  unfold enhancedRoomDetection.classify_rel
  split_ifs <;> decide

/-- C10: implicit totality of the classifier with an unguarded precondition.
For nonzero total_area both classifiers return a label from their fixed
finite label set (the nine seed-anchored labels, respectively the values of
ROOM_TYPES); at total_area = 0 the unguarded division fails (Python
ZeroDivisionError), modelled as none. -/
theorem C10_classifier_totality :
    (∀ a r t : ℚ, t ≠ 0 → ∃ l, roomDetection.classify_room_type a r t = some l ∧
        l ∈ ["hallway", "hall", "conference", "classroom", "office", "laboratory",
             "storage", "corridor", "utility"])
  ∧ (∀ a r t : ℚ, t ≠ 0 → ∃ l, enhancedRoomDetection.classify_room_type a r t = some l
        ∧ l ∈ enhancedRoomDetection.ROOM_TYPES.map Prod.snd)
  ∧ (∀ a r : ℚ, roomDetection.classify_room_type a r 0 = none
      ∧ enhancedRoomDetection.classify_room_type a r 0 = none) := by
  refine ⟨?_, ?_, ?_⟩
  · intro a r t ht
    refine ⟨roomDetection.classify_rel (a/t) r, ?_, rd_classify_rel_mem (a/t) r⟩
    unfold roomDetection.classify_room_type
    rw [if_neg ht]
  · intro a r t ht
    refine ⟨enhancedRoomDetection.classify_rel (a/t) r, ?_, en_classify_rel_mem (a/t) r⟩
    unfold enhancedRoomDetection.classify_room_type
    rw [if_neg ht]
  · intro a r
    constructor
    · unfold roomDetection.classify_room_type
      rw [if_pos rfl]
    · unfold enhancedRoomDetection.classify_room_type
      rw [if_pos rfl]

theorem C10_classifier_totality_witness :
    ∃ l, roomDetection.classify_room_type 1 1 10 = some l ∧
      l ∈ ["hallway", "hall", "conference", "classroom", "office", "laboratory",
           "storage", "corridor", "utility"] :=
  C10_classifier_totality.1 1 1 10 (by norm_num)

/-- C8 counterexample: with zero room candidates the seed-anchored pipeline
does not transition to a Failed state — the assembled outcome at a concrete
input is the normally completed record with an empty rooms list and
processingComplete = true, refuting the claim that zero candidates is a
failure. -/
theorem C8_zero_candidates_counterexample :
    roomDetection.assemble_result "floorplan.png" 400 300 "unknown" []
      = Outcome.completed
          { source := "floorplan.png", width := 400, height := 300,
            floor := "unknown", rooms := [], processingComplete := true } := rfl

/-- C8 amended: zero candidates is not a failure. For any source, floor and
image size, both pipelines' result assembly applied to an empty candidate
list completes normally, emitting a record with an empty rooms list and
processingComplete = true; no Failed transition exists on this path. -/
theorem C8_zero_candidates_completes :
    ∀ (source floor : String) (width height : ℕ),
      roomDetection.assemble_result source width height floor []
          = Outcome.completed
              { source := source, width := width, height := height, floor := floor,
                rooms := [], processingComplete := true }
        ∧ enhancedRoomDetection.assemble_result source width height floor []
            = Outcome.completed
                { source := source, width := width, height := height, floor := floor,
                  rooms := [], processingComplete := true, enhancedDetection := true } := by
  intro source floor width height
  exact ⟨rfl, rfl⟩
